import Mathlib

/-!
Shallow embedding of the Vana social-media proof-of-contribution core
(`src/my_proof/proof.py`): the five verifiers (`verify_ownership`,
`assess_quality`, `verify_authenticity`, `verify_time_consistency`,
`verify_uniqueness`) and the orchestrator aggregation in `Proof.generate`.
Scores are modelled as rationals; the external timestamp parser
(`dateutil.parser.parse`) and the wall clock are parameters.
-/

namespace VanaProof

/-- Engagement counters of a post (`post["engagement"]`); absent fields
default to 0.  The JSON integers may be negative, so the fields are `Int`. -/
structure Engagement where
  likes : Int := 0
  comments : Int := 0
  shares : Int := 0
  retweets : Int := 0
  views : Int := 0
  deriving Repr, DecidableEq

/-- One media attachment of a post; `item.get("url", "")` defaults to `""`. -/
structure MediaItem where
  url : String := ""
  deriving Repr, DecidableEq

/-- A post record from `posts.json`.  `user_id` is `Option String` because
`post.get("user_id")` yields `None` when the key is absent (and `None` never
equals the account's string id); `posted_at` is `Option String` because the
time verifier distinguishes an absent key from a present string. -/
structure Post where
  post_id : String := ""
  user_id : Option String := none
  post_url : String := ""
  platform : String := ""
  content : String := ""
  posted_at : Option String := none
  engagement : Engagement := {}
  media : List MediaItem := []
  deriving Repr, DecidableEq

/-- The account record from `account.json`; all fields default to `""`. -/
structure Account where
  email : String := ""
  username : String := ""
  user_id : String := ""
  deriving Repr, DecidableEq

/-- A reference-corpus record (`reference.json`); only `content` and `media`
are ever read from it. -/
structure RefPost where
  content : String := ""
  media : List MediaItem := []
  deriving Repr, DecidableEq

/-- The configuration mapping: `user_email` (falsy `""` means unset, as in
`config.get('user_email', '')`) and the `dlp_id` default. -/
structure Config where
  user_email : String := ""
  dlp_id : Int := 12345
  deriving Repr, DecidableEq

/-- Python substring containment `needle in hay`, on the character lists. -/
def strContains (hay needle : String) : Bool :=
  decide (needle.data <:+: hay.data)

/-- Python `s.startswith(pat)`, on the character lists. -/
def strStartsWith (s pat : String) : Bool :=
  decide (pat.data <+: s.data)

/-- Attributes emitted by `verify_ownership`. -/
structure OwnershipAttrs where
  email_verified : Bool
  user_id_match_percentage : ℚ
  url_consistency_percentage : ℚ
  deriving Repr, DecidableEq

/-- Embedding of `Proof.verify_ownership`.  `accountOpt = none` models a
missing/empty (falsy) account record; the empty-attributes result is `none`. -/
def verify_ownership (cfg : Config) (accountOpt : Option Account)
    (posts : List Post) : ℚ × Option OwnershipAttrs :=
  match accountOpt with
  | none => (0, none)
  | some account =>
    if posts.isEmpty then (0, none)
    else
      let config_email := cfg.user_email
      let email_match : Bool :=
        if config_email ≠ "" then decide (config_email = account.email) else true
      let user_id_matches :=
        (posts.filter (fun p => decide (p.user_id = some account.user_id))).length
      let url_consistency :=
        (posts.filter (fun p => strContains p.post_url account.username)).length
      let total_posts := posts.length
      let user_id_score : ℚ :=
        if total_posts > 0 then (user_id_matches : ℚ) / (total_posts : ℚ) else 0
      let url_score : ℚ :=
        if total_posts > 0 then (url_consistency : ℚ) / (total_posts : ℚ) else 0
      let ownership_score : ℚ :=
        0.4 * (if email_match then 1.0 else 0.0) + 0.3 * user_id_score + 0.3 * url_score
      (ownership_score,
       some { email_verified := email_match
              user_id_match_percentage := user_id_score * 100
              url_consistency_percentage := url_score * 100 })

/-- Engagement sub-score of one post (`assess_quality`, metric 1). -/
def engagement_score (e : Engagement) : ℚ :=
  let total_engagement : Int := e.likes + e.comments + e.shares + e.retweets
  let engagement_rate : ℚ :=
    if e.views > 0 then (total_engagement : ℚ) / (e.views : ℚ) else 0
  min (engagement_rate * 20) 1.0

/-- Content-length sub-score of one post (`assess_quality`, metric 2);
10 is `min_content_length`, 280 is `ideal_content_length`. -/
def content_score (content : String) : ℚ :=
  let content_length := content.length
  if content_length < 10 then (content_length : ℚ) / 10
  else
    let base : ℚ := min 1.0 ((content_length : ℚ) / 280)
    if (content_length : ℚ) > 280 * 1.5 then
      max 0.7 (1.0 - ((content_length : ℚ) - 280 * 1.5) / 1000)
    else base

/-- Media sub-score of one post (`assess_quality`, metric 3). -/
def media_score (media : List MediaItem) : ℚ :=
  if media.length > 0 then min 1.0 (0.8 + 0.1 * (media.length : ℚ)) else 0.5

/-- Attributes emitted by `assess_quality`. -/
structure QualityAttrs where
  engagement_score : ℚ
  content_score : ℚ
  media_score : ℚ
  deriving Repr, DecidableEq

/-- Embedding of `Proof.assess_quality`; the empty-attributes result on an
empty post list is `none`. -/
def assess_quality (posts : List Post) : ℚ × Option QualityAttrs :=
  if posts.isEmpty then (0, none)
  else
    let total_posts := posts.length
    let engagement_scores := posts.map (fun p => engagement_score p.engagement)
    let content_length_scores := posts.map (fun p => content_score p.content)
    let media_scores := posts.map (fun p => media_score p.media)
    let avg_engagement_score := engagement_scores.sum / (total_posts : ℚ)
    let avg_content_score := content_length_scores.sum / (total_posts : ℚ)
    let avg_media_score := media_scores.sum / (total_posts : ℚ)
    let quality_score :=
      0.5 * avg_engagement_score + 0.3 * avg_content_score + 0.2 * avg_media_score
    (quality_score,
     some { engagement_score := avg_engagement_score * 100
            content_score := avg_content_score * 100
            media_score := avg_media_score * 100 })

/-- The fixed platform-to-URL-pattern table of `verify_authenticity`. -/
def url_patterns : List (String × List String) :=
  [("X", ["https://x.com/", "https://twitter.com/"]),
   ("Instagram", ["https://www.instagram.com/", "https://instagram.com/"]),
   ("LinkedIn", ["https://www.linkedin.com/"]),
   ("Facebook", ["https://www.facebook.com/", "https://facebook.com/"])]

/-- Attributes emitted by `verify_authenticity`. -/
structure AuthAttrs where
  valid_urls_percentage : ℚ
  deriving Repr, DecidableEq

/-- Embedding of `Proof.verify_authenticity` (the account argument of the
source is never read, so it is not a parameter here).  A post with a falsy
platform or URL is skipped by the loop but still counted in `total_posts`. -/
def verify_authenticity (posts : List Post) : ℚ × AuthAttrs :=
  let total_posts := posts.length
  let valid_urls : Nat := posts.foldl (fun acc post =>
    if post.platform = "" ∨ post.post_url = "" then acc
    else
      let valid_url :=
        match url_patterns.lookup post.platform with
        | some pats => pats.any (fun pat => strStartsWith post.post_url pat)
        | none => false
      if valid_url then acc + 1 else acc) 0
  let authenticity_score : ℚ :=
    if total_posts > 0 then (valid_urls : ℚ) / (total_posts : ℚ) else 0
  (authenticity_score,
   ⟨if total_posts > 0 then (valid_urls : ℚ) / (total_posts : ℚ) * 100 else 0⟩)

/-- The default date string `"2000-01-01T00:00:00Z"` used as the sort key
for posts whose `posted_at` key is absent. -/
def defaultDateStr : String := "2000-01-01T00:00:00Z"

/-- Attributes emitted by `verify_time_consistency`; on the trivial and
failure paths only `time_consistency_issues` is present. -/
structure TimeAttrs where
  time_consistency_issues : ℚ
  future_dates : Option Nat := none
  unusual_posting_frequency : Option Nat := none
  deriving Repr, DecidableEq

/-- State of the per-post walk of `verify_time_consistency`: the
previous-timestamp tracker and the two issue counters. -/
structure TimeState where
  prev_date : Option Int := none
  future_dates : Nat := 0
  unusual_frequency : Nat := 0
  deriving Repr, DecidableEq

/-- One iteration of the per-post walk of `verify_time_consistency`.
Parsing an absent `posted_at` raises (`parser.parse(None)`), as does an
unparsable string; the exception is caught and the post skipped, leaving
the walk state unchanged.  Timestamps are seconds, so the 10-second
`min_reasonable_interval` is the literal 10.  This is the simplified
totally-ordered model; `timeStepTz` refines it with the comparison
failures between naive and aware datetimes. -/
def timeStep (dparse : String → Option Int) (now : Int)
    (st : TimeState) (p : Post) : TimeState :=
  match p.posted_at with
  | none => st
  | some s =>
    match dparse s with
    | none => st
    | some post_date =>
      { prev_date := some post_date
        future_dates := st.future_dates + (if post_date > now then 1 else 0)
        unusual_frequency := st.unusual_frequency +
          (match st.prev_date with
           | none => 0
           | some prev => if post_date - prev < 10 then 1 else 0) }

/-- Sort key of a post: the parse of `posted_at`, with the absent field
defaulted to `defaultDateStr` (`x.get("posted_at", "2000-01-01T00:00:00Z")`). -/
def sortKey (dparse : String → Option Int) (p : Post) : Option Int :=
  dparse (p.posted_at.getD defaultDateStr)

/-- Whether the sorting step raises in the simplified totally-ordered
timestamp model: `sorted` evaluates the key function on every element, so
a failing parse fails the step.  `sortFailsTz` refines this with the
`TypeError` Python raises when naive and aware parsed datetimes are
compared inside `sorted`. -/
def sortFails (dparse : String → Option Int) (posts : List Post) : Bool :=
  posts.any (fun p => (sortKey dparse p).isNone)

/-- Embedding of `Proof.verify_time_consistency`.  `dparse` models
`dateutil.parser.parse` (None for a raising parse), `now` the UTC clock;
parsed timestamps are modelled as a totally ordered set of integers.
`verify_time_consistencyTz` is the refinement whose timestamps carry the
timezone-awareness flag. -/
def verify_time_consistency (dparse : String → Option Int) (now : Int)
    (posts : List Post) : ℚ × TimeAttrs :=
  let total_posts := posts.length
  if total_posts ≤ 1 then (1.0, { time_consistency_issues := 0 })
  else if sortFails dparse posts then (0.0, { time_consistency_issues := 100 })
  else
    let sorted_posts := posts.mergeSort (fun a b =>
      decide ((sortKey dparse a).getD 0 ≤ (sortKey dparse b).getD 0))
    let st := sorted_posts.foldl (timeStep dparse now) {}
    let total_issues := st.future_dates + st.unusual_frequency
    let issue_percentage : ℚ := ((total_issues : ℚ) / (total_posts : ℚ)) * 100
    let time_score : ℚ := max 0.0 (min 1.0 (1.0 - (total_issues : ℚ) / (total_posts : ℚ)))
    (time_score,
     { time_consistency_issues := issue_percentage
       future_dates := some st.future_dates
       unusual_posting_frequency := some st.unusual_frequency })

/-- Python `content.split()`: whitespace-separated words, empties dropped. -/
def wordsOf (s : String) : List String :=
  (s.split (fun c => c.isWhitespace)).filter (fun w => decide (w ≠ ""))

/-- Embedding of `Proof._compute_content_similarity`: maximum, over the
reference posts, of shared-word-count over the larger word-set size of the
two lower-cased contents. -/
def compute_content_similarity (content : String) (reference_posts : List RefPost) : ℚ :=
  if reference_posts.isEmpty ∨ content = "" then 0
  else
    let contentLower := content.toLower
    reference_posts.foldl (fun max_similarity ref_post =>
      let ref_content := ref_post.content.toLower
      if ref_content = "" then max_similarity
      else
        let content_words := (wordsOf contentLower).dedup
        let ref_words := (wordsOf ref_content).dedup
        if content_words.isEmpty ∨ ref_words.isEmpty then max_similarity
        else
          let shared_words := content_words.filter (fun w => decide (w ∈ ref_words))
          let similarity : ℚ :=
            (shared_words.length : ℚ) / ((max content_words.length ref_words.length : Nat) : ℚ)
          max max_similarity similarity) 0

/-- Embedding of `Proof._compute_media_similarity`: every reference media
item whose URL occurs among the post's media URLs is counted, and the count
is divided by the number of the post's media URLs, capped at 1. -/
def compute_media_similarity (media : List MediaItem) (reference_posts : List RefPost) : ℚ :=
  if reference_posts.isEmpty ∨ media.isEmpty then 0
  else
    let media_urls := media.map (fun item => item.url)
    let media_match_count : Nat := reference_posts.foldl (fun acc ref_post =>
      acc + ref_post.media.countP (fun ref_item => decide (ref_item.url ∈ media_urls))) 0
    if media_urls.isEmpty then 0
    else min 1.0 ((media_match_count : ℚ) / (media_urls.length : ℚ))

/-- Per-post media uniqueness inside `verify_uniqueness`: with a truthy
reference corpus it is one minus the media similarity, otherwise 1
("if no reference, assume unique"). -/
def media_uniqueness_of (reference_posts : List RefPost) (p : Post) : ℚ :=
  if !reference_posts.isEmpty then 1.0 - compute_media_similarity p.media reference_posts
  else 1.0

/-- Attributes emitted by `verify_uniqueness`; on the empty-posts path only
`uniqueness_score` is present. -/
structure UniqAttrs where
  content_uniqueness : Option ℚ := none
  media_uniqueness : Option ℚ := none
  uniqueness_score : ℚ
  deriving Repr, DecidableEq

/-- Embedding of `Proof.verify_uniqueness`; `reference_posts` is the loaded
reference corpus (empty when none is available). -/
def verify_uniqueness (reference_posts : List RefPost) (posts : List Post) :
    ℚ × UniqAttrs :=
  let total_posts := posts.length
  if total_posts = 0 then (0, { uniqueness_score := 0 })
  else
    let content_uniqueness_scores := posts.map (fun p =>
      1.0 - compute_content_similarity p.content reference_posts)
    let media_uniqueness_scores := posts.map (media_uniqueness_of reference_posts)
    let avg_content_uniqueness := content_uniqueness_scores.sum / (total_posts : ℚ)
    let avg_media_uniqueness := media_uniqueness_scores.sum / (total_posts : ℚ)
    let uniqueness_score := 0.7 * avg_content_uniqueness + 0.3 * avg_media_uniqueness
    (uniqueness_score,
     { content_uniqueness := some (avg_content_uniqueness * 100)
       media_uniqueness := some (avg_media_uniqueness * 100)
       uniqueness_score := uniqueness_score * 100 })

/-- The merged flat attribute map of the result.  The five verifiers use
disjoint key sets, so the union is modelled as one component per verifier. -/
structure Attributes where
  ownershipAttrs : Option OwnershipAttrs
  qualityAttrs : Option QualityAttrs
  authAttrs : AuthAttrs
  timeAttrs : TimeAttrs
  uniqAttrs : UniqAttrs
  deriving Repr, DecidableEq

/-- Result metadata: the resolved `dlp_id` and the generation timestamp. -/
structure ResultMeta where
  dlp_id : Int
  timestamp : String
  deriving Repr, DecidableEq

/-- Modelled from the spec: the result type `ProofResponse` is defined in
`my_proof/models/proof_response.py`, which is not among the sources here;
spec §3 lists its fields and prescribes the default zero-valued, invalid
state in which the orchestrator creates it (`valid = false`, score 0, all
dimension scores 0, empty attributes and metadata). -/
structure ProofResponse where
  dlp_id : Int := 12345
  valid : Bool := false
  score : ℚ := 0
  ownership : ℚ := 0
  quality : ℚ := 0
  authenticity : ℚ := 0
  uniqueness : ℚ := 0
  attributes : Option Attributes := none
  metadata : Option ResultMeta := none
  deriving Repr, DecidableEq

/-- One statement of the `generate` body inside the `try`: it either updates
the in-progress response or raises (`none`). -/
def GenStep : Type := ProofResponse → Option ProofResponse

/-- Run a statement sequence under `generate`'s `try/except`: the first
raising statement aborts the walk, and the handler forces
`valid := false, score := 0` on the state reached so far. -/
def applySteps : List GenStep → ProofResponse → ProofResponse
  | [], r => r
  | s :: rest, r =>
    match s r with
    | some r2 => applySteps rest r2
    | none => { r with valid := false, score := 0 }

/-- Run a statement sequence with no handler; `none` when any statement
raises. -/
def runSteps : List GenStep → ProofResponse → Option ProofResponse
  | [], r => some r
  | s :: rest, r =>
    match s r with
    | some r2 => runSteps rest r2
    | none => none

/-- The `dlp_id` written into the result metadata:
`metadata.get('dlp_id', config.get('dlp_id', 12345)) if metadata else ...`;
`metadataOpt = none` models a missing, malformed or empty metadata record. -/
def resolve_dlp_id (cfg : Config) (metadataOpt : Option (Option Int)) : Int :=
  match metadataOpt with
  | none => cfg.dlp_id
  | some m => m.getD cfg.dlp_id

/-- The assignment sequence of the `generate` body once the five verifiers
have produced their values; in the pure embedding every statement succeeds,
and the score statement reads the already assigned `authenticity` field
(`0.25 * self.proof_response.authenticity`). -/
def generateSteps (cfg : Config) (nowIso : String) (metadataOpt : Option (Option Int))
    (own qual auth time uniq : ℚ)
    (ownA : Option OwnershipAttrs) (qualA : Option QualityAttrs)
    (authA : AuthAttrs) (timeA : TimeAttrs) (uniqA : UniqAttrs) : List GenStep :=
  [fun r => some { r with attributes := some ⟨ownA, qualA, authA, timeA, uniqA⟩ },
   fun r => some { r with ownership := own, quality := qual, uniqueness := uniq },
   fun r => some { r with authenticity := (auth + time) / 2 },
   fun r => some { r with score :=
     (0.35 * own + 0.25 * qual + 0.25 * r.authenticity + 0.15 * uniq) },
   fun r => some { r with valid :=
     (decide (0.7 ≤ own) && decide (0.5 ≤ qual) && decide (0.9 ≤ auth) &&
      decide (0.8 ≤ time) && decide (0.6 ≤ uniq)) },
   fun r => some { r with metadata := some ⟨resolve_dlp_id cfg metadataOpt, nowIso⟩ }]

/-- Embedding of `Proof.generate`.  `accountOpt`/`postsOpt` are the loaded
records (`none` models a load failure or a falsy record), `dparse` and `now`
the external timestamp parser and UTC clock, `nowIso` the local generation
timestamp, `reference_posts` the loaded reference corpus. -/
def generate (cfg : Config) (dparse : String → Option Int) (now : Int) (nowIso : String)
    (accountOpt : Option Account) (postsOpt : Option (List Post))
    (metadataOpt : Option (Option Int)) (reference_posts : List RefPost) : ProofResponse :=
  let init : ProofResponse := { dlp_id := cfg.dlp_id }
  match accountOpt, postsOpt with
  | some account, some posts =>
    if posts.isEmpty then init
    else
      let ownershipR := verify_ownership cfg (some account) posts
      let qualityR := assess_quality posts
      let authenticityR := verify_authenticity posts
      let timeR := verify_time_consistency dparse now posts
      let uniquenessR := verify_uniqueness reference_posts posts
      applySteps (generateSteps cfg nowIso metadataOpt
        ownershipR.1 qualityR.1 authenticityR.1 timeR.1 uniquenessR.1
        ownershipR.2 qualityR.2 authenticityR.2 timeR.2 uniquenessR.2) init
  | _, _ => init

/-- Claim-side predicate (spec §4.3): a post counts as a valid URL exactly
when it has a non-empty platform and URL and the URL starts with one of the
prefixes registered for its platform in the fixed table. -/
def authValid (p : Post) : Bool :=
  decide (p.platform ≠ "" ∧ p.post_url ≠ "" ∧
    ∃ pat ∈ (url_patterns.lookup p.platform).getD [], strStartsWith p.post_url pat = true)

/-- Claim-side count (spec §4.5): for each of the post's media URLs, every
reference media item whose URL exactly equals one of them is counted. -/
def mediaMatchCount (media : List MediaItem) (reference_posts : List RefPost) : Nat :=
  (reference_posts.map (fun ref_post =>
    ref_post.media.countP (fun ref_item =>
      decide (ref_item.url ∈ media.map (fun item => item.url))))).sum

/-- All engagement counters of a post are nonnegative (true of any real
export, where they are counts). -/
def engagement_nonneg (e : Engagement) : Prop :=
  0 ≤ e.likes ∧ 0 ≤ e.comments ∧ 0 ≤ e.shares ∧ 0 ≤ e.retweets

/-- Claim-side predicate (spec §8): every score field of the result lies in
the closed interval `[0, 1]`. -/
def scores_in_range (r : ProofResponse) : Prop :=
  (0 ≤ r.ownership ∧ r.ownership ≤ 1) ∧
  (0 ≤ r.quality ∧ r.quality ≤ 1) ∧
  (0 ≤ r.authenticity ∧ r.authenticity ≤ 1) ∧
  (0 ≤ r.uniqueness ∧ r.uniqueness ≤ 1) ∧
  (0 ≤ r.score ∧ r.score ≤ 1)

/-- A parser model that fails on every string. -/
def dparseNone : String → Option Int := fun _ => none

/-- A parser model that accepts the default date and one demo date. -/
def dparseDemo : String → Option Int := fun s =>
  if s = defaultDateStr then some 0
  else if s = "2024-06-01T00:00:00Z" then some 1717200000
  else none

/-- A demo account used by concrete witnesses. -/
def demoAccount : Account :=
  { email := "alice@example.com", username := "alice", user_id := "u1" }

/-- A demo post belonging to `demoAccount`. -/
def demoPost : Post :=
  { user_id := some "u1", post_url := "https://x.com/alice/status/1",
    platform := "X", content := "hello world",
    posted_at := some "2024-06-01T00:00:00Z" }

/-- A post whose engagement counters are negative. -/
def badEngagementPost : Post :=
  { engagement := { likes := -100, views := 1 } }

/-- A post whose `posted_at` string is present but unparsable. -/
def unparsablePost : Post := { posted_at := some "not-a-date" }

/-- A demo media list with a single URL. -/
def demoMedia : List MediaItem := [{ url := "https://img.example.com/1" }]

/-- A demo reference corpus whose single post carries the same media URL
twice, so the raw media-match ratio exceeds 1 before the cap. -/
def demoRefs : List RefPost :=
  [{ media := [{ url := "https://img.example.com/1" },
               { url := "https://img.example.com/1" }] }]

/-- A parsed datetime as `dateutil.parser.parse` produces it: the instant
in seconds together with whether the datetime is timezone-aware.  Python
raises `TypeError` whenever a naive and an aware datetime are compared. -/
structure DateTz where
  aware : Bool
  t : Int
  deriving Repr, DecidableEq

/-- Sort key of a post in the timezone-aware refinement: the parse of
`posted_at`, with an absent field defaulted to `defaultDateStr`, whose
parse is timezone-aware (the string carries a `Z` suffix). -/
def sortKeyTz (dparse : String → Option DateTz) (p : Post) : Option DateTz :=
  dparse (p.posted_at.getD defaultDateStr)

/-- Whether the sorting step raises in the timezone-aware refinement:
`sorted` computes the key of every element, so a failing parse raises; and
any comparison-based ordering of keys holding both a naive and an aware
datetime must compare the two kinds at least once, which raises
`TypeError`.  The surrounding `except` catches both alike. -/
def sortFailsTz (dparse : String → Option DateTz) (posts : List Post) : Bool :=
  posts.any (fun p => (sortKeyTz dparse p).isNone) ||
  (posts.any (fun p =>
      match sortKeyTz dparse p with
      | some d => !d.aware
      | none => false) &&
   posts.any (fun p =>
      match sortKeyTz dparse p with
      | some d => d.aware
      | none => false))

/-- One iteration of the per-post walk in the timezone-aware refinement.
An absent `posted_at` raises at `parser.parse(None)`; a naive parsed date
raises at the comparison with the aware UTC clock.  Both exceptions are
caught and skip the post, leaving the walk state unchanged.  A date that
survives the clock comparison is aware, so the tracked previous date is
aware too and the interval subtraction cannot raise. -/
def timeStepTz (dparse : String → Option DateTz) (now : Int)
    (st : TimeState) (p : Post) : TimeState :=
  match p.posted_at with
  | none => st
  | some s =>
    match dparse s with
    | none => st
    | some d =>
      if d.aware = false then st
      else
        { prev_date := some d.t
          future_dates := st.future_dates + (if d.t > now then 1 else 0)
          unusual_frequency := st.unusual_frequency +
            (match st.prev_date with
             | none => 0
             | some prev => if d.t - prev < 10 then 1 else 0) }

/-- Timezone-aware refinement of `Proof.verify_time_consistency`: like
`verify_time_consistency`, but a parsed timestamp carries its awareness
flag, so the `TypeError` that Python raises on every naive-versus-aware
comparison is part of the model.  On the non-failing path all keys share
one awareness, so ordering by the instant is the order Python computes. -/
def verify_time_consistencyTz (dparse : String → Option DateTz) (now : Int)
    (posts : List Post) : ℚ × TimeAttrs :=
  let total_posts := posts.length
  if total_posts ≤ 1 then (1.0, { time_consistency_issues := 0 })
  else if sortFailsTz dparse posts then (0.0, { time_consistency_issues := 100 })
  else
    let sorted_posts := posts.mergeSort (fun a b =>
      decide (((sortKeyTz dparse a).map DateTz.t).getD 0 ≤
              ((sortKeyTz dparse b).map DateTz.t).getD 0))
    let st := sorted_posts.foldl (timeStepTz dparse now) {}
    let total_issues := st.future_dates + st.unusual_frequency
    let issue_percentage : ℚ := ((total_issues : ℚ) / (total_posts : ℚ)) * 100
    let time_score : ℚ :=
      max 0.0 (min 1.0 (1.0 - (total_issues : ℚ) / (total_posts : ℚ)))
    (time_score,
     { time_consistency_issues := issue_percentage
       future_dates := some st.future_dates
       unusual_posting_frequency := some st.unusual_frequency })

/-- A timezone-aware parser model: the default date parses aware, one demo
string parses naive, everything else fails. -/
def dparseTzDemo : String → Option DateTz := fun s =>
  if s = defaultDateStr then some { aware := true, t := 0 }
  else if s = "2024-06-01T12:00:00" then some { aware := false, t := 1717243200 }
  else none

/-- A post with no `posted_at` field at all. -/
def absentDatePost : Post := {}

/-- A post whose `posted_at` parses to a naive (timezone-less) datetime. -/
def naiveDatePost : Post := { posted_at := some "2024-06-01T12:00:00" }

/-- A demo step that assigns the ownership field. -/
def demoStep : GenStep := fun r => some { r with ownership := 1 }

/-- A demo step that raises. -/
def failStep : GenStep := fun _ => none

lemma foldl_invariant {α β : Type} (P : β → Prop) (f : β → α → β) (l : List α) (b : β)
    (hb : P b) (hf : ∀ acc x, P acc → P (f acc x)) : P (l.foldl f b) := by
  induction l generalizing b with
  | nil => exact hb
  | cons x xs ih => exact ih _ (hf _ _ hb)

lemma sum_div_length_nonneg (l : List ℚ) (h : ∀ x ∈ l, 0 ≤ x) :
    0 ≤ l.sum / (l.length : ℚ) :=
  div_nonneg (List.sum_nonneg h) (by positivity)

lemma sum_div_length_le_one (l : List ℚ) (h : ∀ x ∈ l, x ≤ 1) (hne : l ≠ []) :
    l.sum / (l.length : ℚ) ≤ 1 := by
  have hlen : 0 < (l.length : ℚ) := by
    exact_mod_cast List.length_pos.mpr hne
  rw [div_le_one hlen]
  calc l.sum ≤ l.length • (1 : ℚ) := List.sum_le_card_nsmul l 1 h
    _ = (l.length : ℚ) := by simp

lemma count_div_length_bounds (k n : Nat) (hk : k ≤ n) :
    0 ≤ (k : ℚ) / (n : ℚ) ∧ (k : ℚ) / (n : ℚ) ≤ 1 := by
  constructor
  · positivity
  · rcases Nat.eq_zero_or_pos n with h | h
    · subst h; simp
    · rw [div_le_one (by exact_mod_cast h)]
      exact_mod_cast hk

lemma verify_ownership_bounds (cfg : Config) (accountOpt : Option Account)
    (posts : List Post) :
    0 ≤ (verify_ownership cfg accountOpt posts).1 ∧
      (verify_ownership cfg accountOpt posts).1 ≤ 1 := by
  match accountOpt with
  | none => simp [verify_ownership]
  | some account =>
    by_cases hp : posts.isEmpty
    · simp [verify_ownership, hp]
    · have hne : posts ≠ [] := by simpa [List.isEmpty_iff] using hp
      have hlen : 0 < posts.length := List.length_pos.mpr hne
      have h1 := count_div_length_bounds
        (posts.filter (fun p => decide (p.user_id = some account.user_id))).length
        posts.length (List.length_filter_le _ _)
      have h2 := count_div_length_bounds
        (posts.filter (fun p => strContains p.post_url account.username)).length
        posts.length (List.length_filter_le _ _)
      have hpb : posts.isEmpty = false := by simpa using hp
      simp only [verify_ownership, hpb, Bool.false_eq_true, if_false, hlen, if_true]
      constructor <;> split_ifs <;>
        linarith [h1.1, h1.2, h2.1, h2.2]

lemma map_avg_bounds {α : Type} (l : List α) (f : α → ℚ) (hne : l ≠ [])
    (h0 : ∀ x ∈ l, 0 ≤ f x) (h1 : ∀ x ∈ l, f x ≤ 1) :
    0 ≤ (l.map f).sum / (l.length : ℚ) ∧ (l.map f).sum / (l.length : ℚ) ≤ 1 := by
  have hl : (l.map f).length = l.length := List.length_map _ _
  have hne2 : l.map f ≠ [] := by simpa using hne
  constructor
  · have := sum_div_length_nonneg (l.map f) (by
      intro x hx
      obtain ⟨a, ha, rfl⟩ := List.mem_map.mp hx
      exact h0 a ha)
    rwa [hl] at this
  · have := sum_div_length_le_one (l.map f) (by
      intro x hx
      obtain ⟨a, ha, rfl⟩ := List.mem_map.mp hx
      exact h1 a ha) hne2
    rwa [hl] at this

lemma engagement_score_bounds (e : Engagement) (h : engagement_nonneg e) :
    0 ≤ engagement_score e ∧ engagement_score e ≤ 1 := by
  obtain ⟨h1, h2, h3, h4⟩ := h
  unfold engagement_score
  have hrate : (0:ℚ) ≤
      (if e.views > 0 then ((e.likes + e.comments + e.shares + e.retweets : Int) : ℚ) / (e.views : ℚ) else 0) := by
    split_ifs with hv
    · apply div_nonneg
      · exact_mod_cast by linarith
      · exact_mod_cast le_of_lt hv
    · exact le_refl 0
  simp only
  constructor
  · exact le_min (mul_nonneg hrate (by norm_num)) (by norm_num)
  · calc min _ (1.0:ℚ) ≤ 1.0 := min_le_right _ _
      _ = 1 := by norm_num

lemma content_score_bounds (c : String) :
    0 ≤ content_score c ∧ content_score c ≤ 1 := by
  unfold content_score
  simp only
  split_ifs with h1 h2
  · constructor
    · positivity
    · rw [div_le_one (by norm_num)]
      have : (c.length : ℚ) < 10 := by exact_mod_cast h1
      linarith
  · constructor
    · calc (0:ℚ) ≤ 0.7 := by norm_num
        _ ≤ max 0.7 _ := le_max_left _ _
    · apply max_le (by norm_num)
      have : (0:ℚ) ≤ ((c.length : ℚ) - 280 * 1.5) / 1000 := by
        apply div_nonneg (by linarith) (by norm_num)
      linarith
  · constructor
    · exact le_min (by norm_num) (by positivity)
    · calc min (1.0:ℚ) ((c.length : ℚ) / 280) ≤ 1.0 := min_le_left _ _
        _ = 1 := by norm_num

lemma media_score_bounds (media : List MediaItem) :
    0 ≤ media_score media ∧ media_score media ≤ 1 := by
  unfold media_score
  split_ifs with h
  · constructor
    · exact le_min (by norm_num) (by positivity)
    · calc min (1.0:ℚ) _ ≤ 1.0 := min_le_left _ _
        _ = 1 := by norm_num
  · norm_num

lemma assess_quality_bounds (posts : List Post)
    (h : ∀ p ∈ posts, engagement_nonneg p.engagement) :
    0 ≤ (assess_quality posts).1 ∧ (assess_quality posts).1 ≤ 1 := by
  by_cases hp : posts.isEmpty
  · simp [assess_quality, hp]
  · have hne : posts ≠ [] := by simpa [List.isEmpty_iff] using hp
    have hpb : posts.isEmpty = false := by simpa using hp
    have hE := map_avg_bounds posts (fun p => engagement_score p.engagement) hne
      (fun p hp2 => (engagement_score_bounds _ (h p hp2)).1)
      (fun p hp2 => (engagement_score_bounds _ (h p hp2)).2)
    have hC := map_avg_bounds posts (fun p => content_score p.content) hne
      (fun p _ => (content_score_bounds _).1)
      (fun p _ => (content_score_bounds _).2)
    have hM := map_avg_bounds posts (fun p => media_score p.media) hne
      (fun p _ => (media_score_bounds _).1)
      (fun p _ => (media_score_bounds _).2)
    simp only [assess_quality, hpb, Bool.false_eq_true, if_false]
    constructor <;> linarith [hE.1, hE.2, hC.1, hC.2, hM.1, hM.2]

lemma authValid_true_iff (p : Post) :
    authValid p = true ↔
      (p.platform ≠ "" ∧ p.post_url ≠ "" ∧
        ∃ pat ∈ (url_patterns.lookup p.platform).getD [], strStartsWith p.post_url pat = true) := by
  simp [authValid]

lemma auth_foldl_eq (posts : List Post) : ∀ acc : Nat,
    posts.foldl (fun acc post =>
      if post.platform = "" ∨ post.post_url = "" then acc
      else
        let valid_url :=
          match url_patterns.lookup post.platform with
          | some pats => pats.any (fun pat => strStartsWith post.post_url pat)
          | none => false
        if valid_url then acc + 1 else acc) acc
      = acc + posts.countP authValid := by
  induction posts with
  | nil => simp
  | cons p rest ih =>
    intro acc
    rw [List.foldl_cons, ih, List.countP_cons]
    have hv : (if p.platform = "" ∨ p.post_url = "" then acc
        else
          let valid_url :=
            match url_patterns.lookup p.platform with
            | some pats => pats.any (fun pat => strStartsWith p.post_url pat)
            | none => false
          if valid_url then acc + 1 else acc)
        = acc + (if authValid p then 1 else 0) := by
      by_cases h1 : p.platform = "" ∨ p.post_url = ""
      · have hav : authValid p = false := by
          rw [Bool.eq_false_iff, Ne, authValid_true_iff]
          tauto
        simp [h1, hav]
      · push_neg at h1
        cases hl : url_patterns.lookup p.platform with
        | none =>
          have hav : authValid p = false := by
            rw [Bool.eq_false_iff, Ne, authValid_true_iff, hl]
            simp
          simp only [if_neg (by tauto : ¬(p.platform = "" ∨ p.post_url = ""))]
          simp [hl, hav]
        | some pats =>
          by_cases ha : pats.any (fun pat => strStartsWith p.post_url pat) = true
          · have hav : authValid p = true := by
              rw [authValid_true_iff, hl]
              refine ⟨h1.1, h1.2, ?_⟩
              simpa using List.any_eq_true.mp ha
            simp only [if_neg (by tauto : ¬(p.platform = "" ∨ p.post_url = ""))]
            simp [hl, ha, hav]
          · have hav : authValid p = false := by
              rw [Bool.eq_false_iff, Ne, authValid_true_iff, hl]
              intro hcon
              exact ha (List.any_eq_true.mpr (by simpa using hcon.2.2))
            simp only [if_neg (by tauto : ¬(p.platform = "" ∨ p.post_url = ""))]
            simp [hl, ha, hav]
    rw [hv]
    omega

lemma verify_authenticity_score_eq (posts : List Post) :
    (verify_authenticity posts).1 = (posts.countP authValid : ℚ) / (posts.length : ℚ) := by
  unfold verify_authenticity
  simp only
  rw [auth_foldl_eq posts 0]
  by_cases hl : posts.length > 0
  · simp [hl]
  · have : posts = [] := List.length_eq_zero.mp (by omega)
    subst this
    simp

lemma verify_authenticity_bounds (posts : List Post) :
    0 ≤ (verify_authenticity posts).1 ∧ (verify_authenticity posts).1 ≤ 1 := by
  rw [verify_authenticity_score_eq]
  exact count_div_length_bounds _ _ (List.countP_le_length _)

lemma verify_time_bounds (dparse : String → Option Int) (now : Int) (posts : List Post) :
    0 ≤ (verify_time_consistency dparse now posts).1 ∧
      (verify_time_consistency dparse now posts).1 ≤ 1 := by
  unfold verify_time_consistency
  simp only
  split_ifs
  · norm_num
  · norm_num
  · constructor
    · calc (0:ℚ) ≤ 0.0 := by norm_num
        _ ≤ max 0.0 _ := le_max_left _ _
    · apply max_le (by norm_num)
      calc min (1.0:ℚ) _ ≤ 1.0 := min_le_left _ _
        _ = 1 := by norm_num

lemma compute_content_similarity_bounds (content : String) (refs : List RefPost) :
    0 ≤ compute_content_similarity content refs ∧
      compute_content_similarity content refs ≤ 1 := by
  unfold compute_content_similarity
  split_ifs with h
  · norm_num
  · apply foldl_invariant (P := fun q => 0 ≤ q ∧ q ≤ 1)
    · exact ⟨le_refl 0, by norm_num⟩
    · intro acc rp hacc
      simp only
      split_ifs with h1 h2
      · exact hacc
      · exact hacc
      · refine ⟨le_trans hacc.1 (le_max_left _ _), max_le hacc.2 ?_⟩
        have hcw : ¬((wordsOf content.toLower).dedup.isEmpty = true) := by tauto
        have hne : (wordsOf content.toLower).dedup ≠ [] := by
          simpa [List.isEmpty_iff] using hcw
        have hpos : (0:ℚ) <
            ((max (wordsOf content.toLower).dedup.length
                  (wordsOf rp.content.toLower).dedup.length : Nat) : ℚ) := by
          have : 0 < (wordsOf content.toLower).dedup.length := List.length_pos.mpr hne
          have : 0 < max (wordsOf content.toLower).dedup.length
              (wordsOf rp.content.toLower).dedup.length := lt_of_lt_of_le this (le_max_left _ _)
          exact_mod_cast this
        rw [div_le_one hpos]
        have hlen : ((wordsOf content.toLower).dedup.filter
              (fun w => decide (w ∈ (wordsOf rp.content.toLower).dedup))).length ≤
            max (wordsOf content.toLower).dedup.length
              (wordsOf rp.content.toLower).dedup.length :=
          le_trans (List.length_filter_le _ _) (le_max_left _ _)
        exact_mod_cast hlen

lemma compute_media_similarity_bounds (media : List MediaItem) (refs : List RefPost) :
    0 ≤ compute_media_similarity media refs ∧
      compute_media_similarity media refs ≤ 1 := by
  unfold compute_media_similarity
  simp only
  split_ifs with h1 h2
  · norm_num
  · norm_num
  · constructor
    · exact le_min (by norm_num) (by positivity)
    · calc min (1.0:ℚ) _ ≤ 1.0 := min_le_left _ _
        _ = 1 := by norm_num

lemma media_uniqueness_of_bounds (refs : List RefPost) (p : Post) :
    0 ≤ media_uniqueness_of refs p ∧ media_uniqueness_of refs p ≤ 1 := by
  unfold media_uniqueness_of
  split_ifs with h
  · have hb := compute_media_similarity_bounds p.media refs
    constructor <;> linarith [hb.1, hb.2]
  · norm_num

lemma verify_uniqueness_bounds (refs : List RefPost) (posts : List Post) :
    0 ≤ (verify_uniqueness refs posts).1 ∧ (verify_uniqueness refs posts).1 ≤ 1 := by
  unfold verify_uniqueness
  simp only
  split_ifs with h0
  · norm_num
  · have hne : posts ≠ [] := by
      intro hcon
      exact h0 (by simp [hcon])
    have hC := map_avg_bounds posts
      (fun p => 1.0 - compute_content_similarity p.content refs) hne
      (fun p _ => by
        have hb := compute_content_similarity_bounds p.content refs
        linarith [hb.2])
      (fun p _ => by
        have hb := compute_content_similarity_bounds p.content refs
        linarith [hb.1])
    have hM := map_avg_bounds posts (media_uniqueness_of refs) hne
      (fun p _ => (media_uniqueness_of_bounds refs p).1)
      (fun p _ => (media_uniqueness_of_bounds refs p).2)
    constructor <;> linarith [hC.1, hC.2, hM.1, hM.2]

lemma generate_run (cfg : Config) (dparse : String → Option Int) (now : Int)
    (nowIso : String) (account : Account) (posts : List Post)
    (metadataOpt : Option (Option Int)) (refs : List RefPost) (h : posts ≠ []) :
    generate cfg dparse now nowIso (some account) (some posts) metadataOpt refs =
      { dlp_id := cfg.dlp_id
        valid := (decide (0.7 ≤ (verify_ownership cfg (some account) posts).1) &&
                  decide (0.5 ≤ (assess_quality posts).1) &&
                  decide (0.9 ≤ (verify_authenticity posts).1) &&
                  decide (0.8 ≤ (verify_time_consistency dparse now posts).1) &&
                  decide (0.6 ≤ (verify_uniqueness refs posts).1))
        score := 0.35 * (verify_ownership cfg (some account) posts).1 +
                 0.25 * (assess_quality posts).1 +
                 0.25 * (((verify_authenticity posts).1 +
                          (verify_time_consistency dparse now posts).1) / 2) +
                 0.15 * (verify_uniqueness refs posts).1
        ownership := (verify_ownership cfg (some account) posts).1
        quality := (assess_quality posts).1
        authenticity := ((verify_authenticity posts).1 +
                         (verify_time_consistency dparse now posts).1) / 2
        uniqueness := (verify_uniqueness refs posts).1
        attributes := some ⟨(verify_ownership cfg (some account) posts).2,
                            (assess_quality posts).2,
                            (verify_authenticity posts).2,
                            (verify_time_consistency dparse now posts).2,
                            (verify_uniqueness refs posts).2⟩
        metadata := some ⟨resolve_dlp_id cfg metadataOpt, nowIso⟩ } := by
  have hpb : posts.isEmpty = false := by simpa [List.isEmpty_iff] using h
  simp [generate, hpb, generateSteps, applySteps]

lemma media_foldl_eq (media_urls : List String) (refs : List RefPost) : ∀ acc : Nat,
    refs.foldl (fun acc ref_post =>
      acc + ref_post.media.countP (fun ref_item => decide (ref_item.url ∈ media_urls))) acc
      = acc + (refs.map (fun ref_post =>
          ref_post.media.countP (fun ref_item => decide (ref_item.url ∈ media_urls)))).sum := by
  induction refs with
  | nil => simp
  | cons r rest ih =>
    intro acc
    rw [List.foldl_cons, ih]
    simp
    omega

/-- Claim C1, counterexample: for an input holding exactly one post whose
`posted_at` string is unparsable, `verify_time_consistency` does not return
score 0.0 with the issue sentinel 100 — the `total_posts <= 1` short-circuit
fires before any parsing. -/
theorem C1_counterexample :
    ¬ (((verify_time_consistency dparseNone 0 [unparsablePost]).1 = 0) ∧
       ((verify_time_consistency dparseNone 0 [unparsablePost]).2.time_consistency_issues = 100)) := by
  norm_num [verify_time_consistency]

/-- Claim C1, amended: for any single-post input — in particular one whose
`posted_at` string is unparsable — `verify_time_consistency` returns score
1.0 with `time_consistency_issues` 0, so the 0.8 time gate passes and the
overall verdict is not forced invalid by this verifier. -/
theorem C1_theorem (dparse : String → Option Int) (now : Int) (p : Post) :
    (verify_time_consistency dparse now [p]).1 = 1 ∧
    (verify_time_consistency dparse now [p]).2.time_consistency_issues = 0 ∧
    0.8 ≤ (verify_time_consistency dparse now [p]).1 := by
  norm_num [verify_time_consistency]

/-- Claim C1, closed witness of the amended statement at a concrete
unparsable post. -/
theorem C1_witness :
    (verify_time_consistency dparseNone 0 [unparsablePost]).1 = 1 ∧
    (verify_time_consistency dparseNone 0 [unparsablePost]).2.time_consistency_issues = 0 ∧
    0.8 ≤ (verify_time_consistency dparseNone 0 [unparsablePost]).1 :=
  C1_theorem dparseNone 0 unparsablePost

/-- Claim C2: on the scoring path the result's `valid` flag is true if and
only if all five threshold gates hold simultaneously — ownership ≥ 0.7,
quality ≥ 0.5, raw URL-authenticity (pre-combination) ≥ 0.9, raw
time-consistency ≥ 0.8 and uniqueness ≥ 0.6 — so failing any single gate
makes it false regardless of the weighted overall score. -/
theorem C2_theorem (cfg : Config) (dparse : String → Option Int) (now : Int)
    (nowIso : String) (account : Account) (posts : List Post)
    (metadataOpt : Option (Option Int)) (refs : List RefPost) (h : posts ≠ []) :
    ((generate cfg dparse now nowIso (some account) (some posts) metadataOpt refs).valid
        = true ↔
      (0.7 ≤ (verify_ownership cfg (some account) posts).1 ∧
       0.5 ≤ (assess_quality posts).1 ∧
       0.9 ≤ (verify_authenticity posts).1 ∧
       0.8 ≤ (verify_time_consistency dparse now posts).1 ∧
       0.6 ≤ (verify_uniqueness refs posts).1)) := by
  rw [generate_run cfg dparse now nowIso account posts metadataOpt refs h]
  simp [Bool.and_eq_true, decide_eq_true_iff, and_assoc]

/-- Claim C2, closed witness at a concrete single-post input. -/
theorem C2_witness :
    [demoPost] ≠ [] ∧
    ((generate {} dparseDemo 0 "t" (some demoAccount) (some [demoPost]) none []).valid
        = true ↔
      (0.7 ≤ (verify_ownership {} (some demoAccount) [demoPost]).1 ∧
       0.5 ≤ (assess_quality [demoPost]).1 ∧
       0.9 ≤ (verify_authenticity [demoPost]).1 ∧
       0.8 ≤ (verify_time_consistency dparseDemo 0 [demoPost]).1 ∧
       0.6 ≤ (verify_uniqueness [] [demoPost]).1)) :=
  ⟨by simp, C2_theorem {} dparseDemo 0 "t" demoAccount [demoPost] none [] (by simp)⟩

/-- Claim C3: the returned `authenticity` field equals the average of the
raw URL-authenticity score and the time-consistency score, and the overall
score equals `0.35*ownership + 0.25*quality + 0.25*combined_authenticity +
0.15*uniqueness` with that averaged value as the authenticity dimension. -/
theorem C3_theorem (cfg : Config) (dparse : String → Option Int) (now : Int)
    (nowIso : String) (account : Account) (posts : List Post)
    (metadataOpt : Option (Option Int)) (refs : List RefPost) (h : posts ≠ []) :
    (generate cfg dparse now nowIso (some account) (some posts) metadataOpt refs).authenticity
        = ((verify_authenticity posts).1 + (verify_time_consistency dparse now posts).1) / 2 ∧
    (generate cfg dparse now nowIso (some account) (some posts) metadataOpt refs).score
        = 0.35 * (verify_ownership cfg (some account) posts).1 +
          0.25 * (assess_quality posts).1 +
          0.25 * (((verify_authenticity posts).1 +
                   (verify_time_consistency dparse now posts).1) / 2) +
          0.15 * (verify_uniqueness refs posts).1 := by
  rw [generate_run cfg dparse now nowIso account posts metadataOpt refs h]
  exact ⟨rfl, rfl⟩

/-- Claim C3, closed witness at a concrete single-post input. -/
theorem C3_witness :
    [demoPost] ≠ [] ∧
    ((generate {} dparseDemo 0 "t" (some demoAccount) (some [demoPost]) none []).authenticity
        = ((verify_authenticity [demoPost]).1 +
           (verify_time_consistency dparseDemo 0 [demoPost]).1) / 2 ∧
     (generate {} dparseDemo 0 "t" (some demoAccount) (some [demoPost]) none []).score
        = 0.35 * (verify_ownership {} (some demoAccount) [demoPost]).1 +
          0.25 * (assess_quality [demoPost]).1 +
          0.25 * (((verify_authenticity [demoPost]).1 +
                   (verify_time_consistency dparseDemo 0 [demoPost]).1) / 2) +
          0.15 * (verify_uniqueness [] [demoPost]).1) :=
  ⟨by simp, C3_theorem {} dparseDemo 0 "t" demoAccount [demoPost] none [] (by simp)⟩

/-- Claim C4, amended: for every input whose posts carry only nonnegative
engagement counters, each returned score field — ownership, quality,
authenticity, uniqueness and the overall score — lies in `[0, 1]`. -/
theorem C4_theorem (cfg : Config) (dparse : String → Option Int) (now : Int)
    (nowIso : String) (accountOpt : Option Account) (postsOpt : Option (List Post))
    (metadataOpt : Option (Option Int)) (refs : List RefPost)
    (h : ∀ posts, postsOpt = some posts → ∀ p ∈ posts, engagement_nonneg p.engagement) :
    scores_in_range (generate cfg dparse now nowIso accountOpt postsOpt metadataOpt refs) := by
  match accountOpt, postsOpt with
  | none, _ =>
    rcases postsOpt with _ | posts <;> norm_num [generate, scores_in_range]
  | some account, none => norm_num [generate, scores_in_range]
  | some account, some posts =>
    by_cases hp : posts = []
    · subst hp
      norm_num [generate, scores_in_range]
    · rw [generate_run cfg dparse now nowIso account posts metadataOpt refs hp]
      have hO := verify_ownership_bounds cfg (some account) posts
      have hQ := assess_quality_bounds posts (h posts rfl)
      have hA := verify_authenticity_bounds posts
      have hT := verify_time_bounds dparse now posts
      have hU := verify_uniqueness_bounds refs posts
      unfold scores_in_range
      dsimp only
      refine ⟨⟨hO.1, hO.2⟩, ⟨hQ.1, hQ.2⟩, ⟨?_, ?_⟩, ⟨hU.1, hU.2⟩, ⟨?_, ?_⟩⟩ <;>
        linarith [hO.1, hO.2, hQ.1, hQ.2, hA.1, hA.2, hT.1, hT.2, hU.1, hU.2]

/-- Claim C4, counterexample: with a negative `likes` counter the returned
quality score is negative, so for arbitrary field values not every returned
score field lies in `[0, 1]`. -/
theorem C4_counterexample :
    (generate {} dparseNone 0 "t" (some demoAccount)
        (some [badEngagementPost]) none []).quality < 0 := by
  rw [generate_run {} dparseNone 0 "t" demoAccount [badEngagementPost] none [] (by simp)]
  dsimp only
  norm_num [assess_quality, badEngagementPost, engagement_score, content_score,
    media_score, min_def, max_def]

/-- Claim C4, closed witness at a concrete input with nonnegative
engagement. -/
theorem C4_witness :
    (∀ posts, (some [demoPost] : Option (List Post)) = some posts →
        ∀ p ∈ posts, engagement_nonneg p.engagement) ∧
    scores_in_range (generate {} dparseDemo 0 "t" (some demoAccount)
        (some [demoPost]) none []) :=
  ⟨by
    intro posts hps p hp
    obtain rfl : [demoPost] = posts := by injection hps
    simp only [List.mem_singleton] at hp
    subst hp
    refine ⟨by norm_num [demoPost], by norm_num [demoPost], by norm_num [demoPost],
      by norm_num [demoPost]⟩,
   C4_theorem {} dparseDemo 0 "t" (some demoAccount) (some [demoPost]) none []
     (by
       intro posts hps p hp
       obtain rfl : [demoPost] = posts := by injection hps
       simp only [List.mem_singleton] at hp
       subst hp
       refine ⟨by norm_num [demoPost], by norm_num [demoPost], by norm_num [demoPost],
         by norm_num [demoPost]⟩)⟩

/-- Claim C5: with no comparison email configured, a non-empty post list
every post of which carries the account's `user_id` and whose `post_url`
contains the account username as a substring yields an ownership score of
exactly 1 (all three weighted components at their maximum). -/
theorem C5_theorem (cfg : Config) (account : Account) (posts : List Post)
    (hemail : cfg.user_email = "") (hne : posts ≠ [])
    (hid : ∀ p ∈ posts, p.user_id = some account.user_id)
    (hurl : ∀ p ∈ posts, strContains p.post_url account.username = true) :
    (verify_ownership cfg (some account) posts).1 = 1 := by
  have hpb : posts.isEmpty = false := by simpa [List.isEmpty_iff] using hne
  have hlen : 0 < posts.length := List.length_pos.mpr hne
  have hq : (posts.length : ℚ) ≠ 0 := Nat.cast_ne_zero.mpr (by omega)
  have hfid : (posts.filter (fun p => decide (p.user_id = some account.user_id))).length
      = posts.length :=
    List.filter_length_eq_length.mpr (fun p hp => by simp [hid p hp])
  have hfurl : (posts.filter (fun p => strContains p.post_url account.username)).length
      = posts.length :=
    List.filter_length_eq_length.mpr (fun p hp => hurl p hp)
  simp only [verify_ownership, hpb, Bool.false_eq_true, if_false, hfid, hfurl]
  simp [hemail, hlen, div_self hq]
  norm_num

/-- Claim C5, closed witness at a concrete account and post. -/
theorem C5_witness :
    ({} : Config).user_email = "" ∧ [demoPost] ≠ [] ∧
    (∀ p ∈ [demoPost], p.user_id = some demoAccount.user_id) ∧
    (∀ p ∈ [demoPost], strContains p.post_url demoAccount.username = true) ∧
    (verify_ownership {} (some demoAccount) [demoPost]).1 = 1 :=
  ⟨rfl, by simp, by decide, by decide,
   C5_theorem {} demoAccount [demoPost] rfl (by simp) (by decide) (by decide)⟩

/-- Claim C6: in `verify_authenticity` a post counts as valid exactly when
it has a non-empty platform and URL and the URL starts with one of the
prefixes registered for that platform in the fixed table; skipped posts are
never counted valid, yet the score divides the valid count by the total
post count including the skipped ones, and is 0 with no posts. -/
theorem C6_theorem (posts : List Post) :
    (verify_authenticity posts).1 = (posts.countP authValid : ℚ) / (posts.length : ℚ) ∧
    (verify_authenticity ([] : List Post)).1 = 0 ∧
    ∀ p : Post, authValid p = true ↔
      (p.platform ≠ "" ∧ p.post_url ≠ "" ∧
        ∃ pat ∈ (url_patterns.lookup p.platform).getD [],
          strStartsWith p.post_url pat = true) :=
  ⟨verify_authenticity_score_eq posts, by simp [verify_authenticity],
   fun p => authValid_true_iff p⟩

/-- Claim C6, closed witness at a concrete single-post list. -/
theorem C6_witness :
    (verify_authenticity [demoPost]).1 =
      (([demoPost].countP authValid : Nat) : ℚ) / (([demoPost].length : Nat) : ℚ) :=
  (C6_theorem [demoPost]).1

/-- Claim C7: with an empty reference corpus a post's media uniqueness is
1.0; otherwise the media similarity is `min(1, matched_url_count /
media_url_count)` where every reference media item whose URL equals any of
the post's media URLs is counted, so repeated reference hits on one URL can
push the raw ratio above 1 before the cap (the demo corpus yields ratio
2/1, capped to similarity 1). -/
theorem C7_theorem :
    (∀ p : Post, media_uniqueness_of [] p = 1) ∧
    (∀ (media : List MediaItem) (refs : List RefPost), refs ≠ [] →
      compute_media_similarity media refs =
        min 1 ((mediaMatchCount media refs : ℚ) / ((media.length : Nat) : ℚ))) ∧
    (mediaMatchCount demoMedia demoRefs = 2 ∧ demoMedia.length = 1 ∧
      compute_media_similarity demoMedia demoRefs = 1) := by
  refine ⟨?_, ?_, ?_, ?_, ?_⟩
  · intro p
    norm_num [media_uniqueness_of]
  · intro media refs hrefs
    have hrb : refs.isEmpty = false := by simpa [List.isEmpty_iff] using hrefs
    by_cases hm : media.isEmpty
    · have hmeq : media = [] := List.isEmpty_iff.mp hm
      subst hmeq
      norm_num [compute_media_similarity, mediaMatchCount, hrb]
    · have hmne : media ≠ [] := by simpa [List.isEmpty_iff] using hm
      have hmu : (media.map (fun item => item.url)).isEmpty = false := by
        simp [List.isEmpty_iff, hmne]
      unfold compute_media_similarity
      simp only [hrb, hm, Bool.false_eq_true, false_or, if_false, hmu]
      rw [media_foldl_eq (media.map (fun item => item.url)) refs 0]
      norm_num [mediaMatchCount, List.length_map]
  · decide
  · decide
  · norm_num [compute_media_similarity, demoMedia, demoRefs]

/-- Claim C7, closed witness at the demo media list and corpus. -/
theorem C7_witness :
    demoRefs ≠ [] ∧
    compute_media_similarity demoMedia demoRefs =
      min 1 ((mediaMatchCount demoMedia demoRefs : ℚ) / ((demoMedia.length : Nat) : ℚ)) :=
  ⟨by simp [demoRefs], C7_theorem.2.1 demoMedia demoRefs (by simp [demoRefs])⟩

/-- Claim C8: if the account record or the posts record is missing or
empty, `generate` short-circuits and returns the proof response in its
default state — invalid, overall score 0, all dimension scores 0, empty
attributes and metadata. -/
theorem C8_theorem (cfg : Config) (dparse : String → Option Int) (now : Int)
    (nowIso : String) (accountOpt : Option Account) (postsOpt : Option (List Post))
    (metadataOpt : Option (Option Int)) (refs : List RefPost)
    (h : accountOpt = none ∨ postsOpt = none ∨ postsOpt = some []) :
    generate cfg dparse now nowIso accountOpt postsOpt metadataOpt refs =
      { dlp_id := cfg.dlp_id } := by
  rcases h with h | h | h
  · subst h
    rcases postsOpt with _ | posts <;> simp [generate]
  · subst h
    rcases accountOpt with _ | a <;> simp [generate]
  · subst h
    rcases accountOpt with _ | a <;> simp [generate]

/-- Claim C8, closed witness with a missing account record. -/
theorem C8_witness :
    generate {} dparseNone 0 "t" none (some [demoPost]) none [] =
      { dlp_id := ({} : Config).dlp_id } :=
  C8_theorem {} dparseNone 0 "t" none (some [demoPost]) none [] (Or.inl rfl)

/-- Claim C9: if any statement of the `generate` body raises after some
prefix of statements has run, the try/except boundary still returns a
response with `valid = false` and `score = 0` in which every field assigned
before the failure keeps its partial value; `applySteps` is total, so no
exception propagates out. -/
theorem C9_theorem (pre post : List GenStep) (f : GenStep) (r r2 : ProofResponse)
    (hpre : runSteps pre r = some r2) (hf : f r2 = none) :
    applySteps (pre ++ f :: post) r = { r2 with valid := false, score := 0 } := by
  induction pre generalizing r with
  | nil =>
    simp only [runSteps, Option.some.injEq] at hpre
    subst hpre
    simp [applySteps, hf]
  | cons s rest ih =>
    simp only [runSteps] at hpre
    cases hs : s r with
    | none =>
      rw [hs] at hpre
      simp at hpre
    | some rmid =>
      rw [hs] at hpre
      simp only [List.cons_append, applySteps, hs]
      exact ih rmid hpre

/-- Claim C9, closed witness: one assignment step followed by a raising
step. -/
theorem C9_witness :
    runSteps [demoStep] {} = some ({ ownership := 1 } : ProofResponse) ∧
    failStep ({ ownership := 1 } : ProofResponse) = none ∧
    applySteps ([demoStep] ++ failStep :: []) {} =
      { ({ ownership := 1 } : ProofResponse) with valid := false, score := 0 } :=
  ⟨rfl, rfl, C9_theorem [demoStep] [] failStep {} { ownership := 1 } rfl rfl⟩

/-- Claim C10, counterexample: for two posts of which the first has no
`posted_at` key at all and the second carries a parsable naive
(timezone-less) timestamp, every present `posted_at` string parses, yet
the verifier fails whole with score 0 and sentinel 100: ordering the keys
must compare the absent-field post's aware default date with the naive
timestamp, which raises `TypeError` inside `sorted`.  So a post whose
`posted_at` is entirely absent can trigger the whole-verifier failure,
and a present-but-malformed string is not the only way the sort step
fails. -/
theorem C10_counterexample :
    verify_time_consistencyTz dparseTzDemo 0 [absentDatePost, naiveDatePost] =
      (0, { time_consistency_issues := 100 }) ∧
    (∀ p ∈ [absentDatePost, naiveDatePost], ∀ s, p.posted_at = some s →
      (dparseTzDemo s).isSome = true) ∧
    absentDatePost.posted_at = none := by
  refine ⟨?_, by decide, rfl⟩
  have hs : sortFailsTz dparseTzDemo [absentDatePost, naiveDatePost] = true := by decide
  norm_num [verify_time_consistencyTz, hs]

/-- Claim C10, amended: with two or more posts and a default date that
parses timezone-aware, the whole-verifier failure (score 0.0, sentinel
100) occurs exactly when some post has a present-but-unparsable
`posted_at` string or the sort keys mix naive and aware datetimes — a
post with an absent `posted_at` keys on the fixed aware default date, so
it does trigger the failure when it stands next to naive timestamps;
during the per-post walk a post whose `posted_at` is absent, or whose
parsed date is naive and so raises at the comparison with the aware UTC
clock, is skipped, contributing to neither `future_dates` nor
`unusual_frequency` and leaving the previous-timestamp tracker
unchanged. -/
theorem C10_theorem (dparse : String → Option DateTz) (now : Int) (posts : List Post)
    (hlen : 2 ≤ posts.length)
    (hdef : ∃ d, dparse defaultDateStr = some d ∧ d.aware = true) :
    ((verify_time_consistencyTz dparse now posts =
        (0, { time_consistency_issues := 100 })) ↔
      ((∃ p ∈ posts, ∃ s, p.posted_at = some s ∧ dparse s = none) ∨
       ((∃ p ∈ posts, ∃ d, sortKeyTz dparse p = some d ∧ d.aware = false) ∧
        (∃ p ∈ posts, ∃ d, sortKeyTz dparse p = some d ∧ d.aware = true)))) ∧
    (∀ (st : TimeState) (p : Post), p.posted_at = none →
      timeStepTz dparse now st p = st) ∧
    (∀ (st : TimeState) (p : Post) (s : String) (d : DateTz),
      p.posted_at = some s → dparse s = some d → d.aware = false →
      timeStepTz dparse now st p = st) := by
  obtain ⟨ddef, hddef, hdaware⟩ := hdef
  have hnot1 : ¬(posts.length ≤ 1) := by omega
  have hkey_none : ∀ p : Post, sortKeyTz dparse p = none ↔
      (∃ s, p.posted_at = some s ∧ dparse s = none) := by
    intro p
    rcases hpa : p.posted_at with _ | s
    · simp [sortKeyTz, hpa, hddef]
    · simp [sortKeyTz, hpa]
  have hfail_iff : sortFailsTz dparse posts = true ↔
      ((∃ p ∈ posts, ∃ s, p.posted_at = some s ∧ dparse s = none) ∨
       ((∃ p ∈ posts, ∃ d, sortKeyTz dparse p = some d ∧ d.aware = false) ∧
        (∃ p ∈ posts, ∃ d, sortKeyTz dparse p = some d ∧ d.aware = true))) := by
    unfold sortFailsTz
    rw [Bool.or_eq_true, Bool.and_eq_true, List.any_eq_true, List.any_eq_true,
      List.any_eq_true]
    constructor
    · rintro (⟨p, hp, hnone⟩ | ⟨⟨p1, hp1, hn1⟩, ⟨p2, hp2, ha2⟩⟩)
      · exact Or.inl ⟨p, hp, (hkey_none p).mp (Option.isNone_iff_eq_none.mp hnone)⟩
      · refine Or.inr ⟨?_, ?_⟩
        · rcases hk : sortKeyTz dparse p1 with _ | d
          · rw [hk] at hn1
            simp at hn1
          · rw [hk] at hn1
            exact ⟨p1, hp1, d, hk, by simpa using hn1⟩
        · rcases hk : sortKeyTz dparse p2 with _ | d
          · rw [hk] at ha2
            simp at ha2
          · rw [hk] at ha2
            exact ⟨p2, hp2, d, hk, ha2⟩
    · rintro (⟨p, hp, s, hpa, hds⟩ | ⟨⟨p1, hp1, d1, hk1, hd1⟩, ⟨p2, hp2, d2, hk2, hd2⟩⟩)
      · refine Or.inl ⟨p, hp, ?_⟩
        rw [Option.isNone_iff_eq_none, hkey_none p]
        exact ⟨s, hpa, hds⟩
      · refine Or.inr ⟨⟨p1, hp1, ?_⟩, ⟨p2, hp2, ?_⟩⟩
        · rw [hk1]
          simp [hd1]
        · rw [hk2]
          simp [hd2]
  refine ⟨?_, ?_, ?_⟩
  · constructor
    · intro heq
      by_cases hs : sortFailsTz dparse posts
      · exact hfail_iff.mp hs
      · exfalso
        unfold verify_time_consistencyTz at heq
        simp only [if_neg hnot1, hs, Bool.false_eq_true, if_false] at heq
        have := congrArg (fun x => x.2.future_dates) heq
        simp at this
    · intro hr
      have hs : sortFailsTz dparse posts = true := hfail_iff.mpr hr
      unfold verify_time_consistencyTz
      simp only [if_neg hnot1, hs, if_true]
      norm_num
  · intro st p hp
    simp [timeStepTz, hp]
  · intro st p s d hpa hds hdn
    simp [timeStepTz, hpa, hds, hdn]

/-- Claim C10, closed witness at the concrete mixed two-post list. -/
theorem C10_witness :
    2 ≤ [absentDatePost, naiveDatePost].length ∧
    (∃ d, dparseTzDemo defaultDateStr = some d ∧ d.aware = true) ∧
    (((verify_time_consistencyTz dparseTzDemo 0 [absentDatePost, naiveDatePost] =
         (0, { time_consistency_issues := 100 })) ↔
       ((∃ p ∈ [absentDatePost, naiveDatePost], ∃ s, p.posted_at = some s ∧
           dparseTzDemo s = none) ∨
        ((∃ p ∈ [absentDatePost, naiveDatePost], ∃ d,
            sortKeyTz dparseTzDemo p = some d ∧ d.aware = false) ∧
         (∃ p ∈ [absentDatePost, naiveDatePost], ∃ d,
            sortKeyTz dparseTzDemo p = some d ∧ d.aware = true)))) ∧
     (∀ (st : TimeState) (p : Post), p.posted_at = none →
       timeStepTz dparseTzDemo 0 st p = st) ∧
     (∀ (st : TimeState) (p : Post) (s : String) (d : DateTz),
       p.posted_at = some s → dparseTzDemo s = some d → d.aware = false →
       timeStepTz dparseTzDemo 0 st p = st)) :=
  ⟨by simp, ⟨{ aware := true, t := 0 }, by decide, rfl⟩,
   C10_theorem dparseTzDemo 0 [absentDatePost, naiveDatePost] (by simp)
     ⟨{ aware := true, t := 0 }, by decide, rfl⟩⟩

end VanaProof
